import Mathlib

/-!
Shallow embedding of `src/kernel/syscalls/syscalls_system_x86.cpp` (zircon
x86 ACPI S-state power control).

The file contains two functions:

* `suspend_thread` — the body run on the dedicated suspend thread: it
  acquires the realmode bootstrap resource, looks up the FACS table, arms
  the firmware waking vector, masks interrupts, saves platform/arch state,
  calls `x86_acpi_transition_s_state`, and on a genuine resume restores
  state and re-enables interrupts.  Two `fbl::AutoCall` guards
  (`wake_vector_cleanup`, then `bootstrap_cleanup`, in that destruction
  order) perform the unwind on scope exit.

* `arch_system_powerctl` — the entry point: validates the command and the
  target S-state, checks CPU-0-only quiescence for resumable states,
  dispatches either to a dedicated thread running `suspend_thread`
  (states 1..4) or to an inline shutdown call (state 5).

The embedding is a trace semantics: collaborator primitives (bootstrap
acquire/release, ACPI table lookup, waking-vector writes, interrupt
masking, suspend/resume primitives, thread operations, the hardware
transition) are opaque to this core, so each invocation is recorded as an
`Event`, and the outcome of each fallible collaborator call is drawn from
an environment record.  Derived folds over the trace recover the firmware
waking-vector value, the bootstrap-held flag and the interrupt-enable
flag, under the documented invariant (the `DEBUG_ASSERT`s in the source)
that no collaborator primitive toggles the interrupt flag itself.
-/

/-- `zx_status_t` values that appear in the source file.  `errOther`
stands for any further error code a collaborator may return (the source
propagates the acquire status verbatim, whatever it is). -/
inductive ZxStatus where
  | ok
  | errNotSupported
  | errInvalidArgs
  | errBadState
  | errNoMemory
  | errInternal
  | errOther
deriving DecidableEq, Repr

/-- How the register-capture structure is passed to
`x86_acpi_transition_s_state`: on the resumable path its address is first
written into `bootstrap_data->registers_ptr` (the resume channel), on the
shutdown path it is a plain stack local never linked anywhere. -/
inductive Capture where
  | wired
  | dummyLocal
deriving DecidableEq, Repr

/-- One collaborator-primitive invocation, recorded in program order.
Fallible calls also record the outcome the environment gave them. -/
inductive Event where
  | acquireBootstrap (status : ZxStatus)
  | releaseBootstrap
  | getTable (ok : Bool)
  | setWakingVector (addr : Nat) (ok : Bool)
  | writeRegistersPtr
  | disableInts
  | enableInts
  | platformSuspend
  | archSuspend
  | transition (capture : Capture) (s a b : Nat)
  | archResume
  | platformResume
  | timerThaw
  | threadCreate (ok : Bool)
  | threadResume
  | threadJoin (infiniteTimeout : Bool)
deriving DecidableEq, Repr

/-- `zx_system_powerctl_arg_t.acpi_transition_s_state`: the three bytes
read by both functions. -/
structure SystemPowerctlArg where
  target_s_state : Nat
  sleep_type_a : Nat
  sleep_type_b : Nat
deriving DecidableEq, Repr

/-- Outcomes of the collaborator calls made inside `suspend_thread`:
`x86_bootstrap16_acquire` (status and, on success, the bootstrap entry
address it hands out), `AcpiGetTable` for the FACS, the arming
`AcpiHwSetFirmwareWakingVector` call, and
`x86_acpi_transition_s_state` (`true` models AE_OK, a genuine
suspend/resume round trip; `false` models immediate firmware rejection). -/
structure SuspendEnv where
  acquireStatus : ZxStatus
  bootstrapIp : Nat
  getTableOk : Bool
  setWakeOk : Bool
  transitionOk : Bool
deriving DecidableEq, Repr

/-- Outcomes of the collaborator calls made by `arch_system_powerctl`
itself: `mp_get_online_mask`, `thread_create` (non-null or null), the
behaviour of the spawned thread, and `x86_acpi_transition_s_state` on the
inline shutdown path. -/
structure PowerctlEnv where
  onlineMask : Nat
  threadCreateOk : Bool
  suspendEnv : SuspendEnv
  shutdownTransitionOk : Bool
deriving DecidableEq, Repr

/-- `ZX_SYSTEM_POWERCTL_ACPI_TRANSITION_S_STATE` from the public syscall
header; only its identity matters to this file. -/
def ZX_SYSTEM_POWERCTL_ACPI_TRANSITION_S_STATE : Nat := 3

/-- `cpu_num_to_mask` from `arch/mp.h`: the singleton CPU mask. -/
def cpu_num_to_mask (n : Nat) : Nat := 1 <<< n

/-- `suspend_thread` (lines 34..101): returns the `zx_status_t` and the
trace of collaborator invocations, in program order, including the
`fbl::AutoCall` unwind that runs at every return (wake-vector clear first,
bootstrap release second, matching reverse construction order).  The
clearing `AcpiHwSetFirmwareWakingVector(facs, 0, 0)` call has its status
ignored by the source; it is recorded as succeeding, per the
collaborator contract that the reset is a safe no-op. -/
def suspend_thread (arg : SystemPowerctlArg) (env : SuspendEnv) : ZxStatus × List Event :=
  -- status = x86_bootstrap16_acquire(_x86_suspend_wakeup, ...)
  let tr0 : List Event := [Event.acquireBootstrap env.acquireStatus]
  if env.acquireStatus ≠ ZxStatus.ok then
    (env.acquireStatus, tr0)
  else
  -- bootstrap_cleanup = AutoCall(x86_bootstrap16_release(bootstrap_data))
  let unwindBootstrap : List Event := [Event.releaseBootstrap]
  -- acpi_status = AcpiGetTable(ACPI_SIG_FACS, 1, &facs)
  let tr1 := tr0 ++ [Event.getTable env.getTableOk]
  if ¬ env.getTableOk then
    (ZxStatus.errBadState, tr1 ++ unwindBootstrap)
  else
  -- acpi_status = AcpiHwSetFirmwareWakingVector(facs, bootstrap_ip, 0)
  let tr2 := tr1 ++ [Event.setWakingVector env.bootstrapIp env.setWakeOk]
  if ¬ env.setWakeOk then
    (ZxStatus.errBadState, tr2 ++ unwindBootstrap)
  else
  -- wake_vector_cleanup = AutoCall(AcpiHwSetFirmwareWakingVector(facs, 0, 0)),
  -- destroyed before bootstrap_cleanup
  let unwindAll : List Event := Event.setWakingVector 0 true :: unwindBootstrap
  -- bootstrap_data->registers_ptr = &regs; arch_disable_ints();
  -- platform_suspend(); arch_suspend();
  -- acpi_status = x86_acpi_transition_s_state(&regs, target, a, b)
  let tr3 := tr2 ++ [Event.writeRegistersPtr, Event.disableInts,
                     Event.platformSuspend, Event.archSuspend,
                     Event.transition Capture.wired arg.target_s_state
                       arg.sleep_type_a arg.sleep_type_b]
  if ¬ env.transitionOk then
    (ZxStatus.errInternal, tr3 ++ [Event.enableInts] ++ unwindAll)
  else
  -- genuine resume: arch_resume(); platform_resume(); timer_thaw_percpu();
  -- arch_enable_ints(); return ZX_OK
  (ZxStatus.ok, tr3 ++ [Event.archResume, Event.platformResume, Event.timerThaw,
                        Event.enableInts] ++ unwindAll)

/-- `arch_system_powerctl` (lines 105..162): validates the command and
S-state, checks the CPU-0-only online mask for non-shutdown states, then
either runs `suspend_thread` on a dedicated joined thread (states below 5)
or performs the shutdown transition inline (state 5). -/
def arch_system_powerctl (cmd : Nat) (arg : SystemPowerctlArg) (env : PowerctlEnv) :
    ZxStatus × List Event :=
  if cmd ≠ ZX_SYSTEM_POWERCTL_ACPI_TRANSITION_S_STATE then
    (ZxStatus.errNotSupported, [])
  else
  if arg.target_s_state = 0 ∨ arg.target_s_state > 5 then
    (ZxStatus.errInvalidArgs, [])
  else
  -- if (target_s_state != 5 && mp_get_online_mask() != cpu_num_to_mask(0))
  if arg.target_s_state ≠ 5 ∧ env.onlineMask ≠ cpu_num_to_mask 0 then
    (ZxStatus.errBadState, [])
  else
  if arg.target_s_state < 5 then
    -- t = thread_create("suspend-thread", suspend_thread, arg, HIGHEST_PRIORITY, ...)
    if ¬ env.threadCreateOk then
      (ZxStatus.errNoMemory, [Event.threadCreate false])
    else
      -- thread_resume(t); thread_join(t, &retcode, ZX_TIME_INFINITE);
      -- if (retcode != ZX_OK) return retcode;  ...  return ZX_OK
      let r := suspend_thread arg env.suspendEnv
      let tr := Event.threadCreate true :: Event.threadResume :: r.2
                  ++ [Event.threadJoin true]
      if r.1 ≠ ZxStatus.ok then (r.1, tr) else (ZxStatus.ok, tr)
  else
    -- arch_disable_ints();
    -- acpi_status = x86_acpi_transition_s_state(&regs, target, a, b);
    -- arch_enable_ints(); if (acpi_status != AE_OK) return ZX_ERR_INTERNAL
    let tr := [Event.disableInts,
               Event.transition Capture.dummyLocal arg.target_s_state
                 arg.sleep_type_a arg.sleep_type_b,
               Event.enableInts]
    if ¬ env.shutdownTransitionOk then (ZxStatus.errInternal, tr)
    else (ZxStatus.ok, tr)

/-! Derived observations over a trace. -/

/-- Firmware waking-vector value after the trace, starting from the
cleared (zero) vector; a failed `AcpiHwSetFirmwareWakingVector` call
leaves the field unchanged. -/
def wakeVectorAfter (tr : List Event) : Nat :=
  tr.foldl (fun v e =>
    match e with
    | Event.setWakingVector a true => a
    | _ => v) 0

/-- Whether the bootstrap resource is still held after the trace. -/
def bootstrapHeldAfter (tr : List Event) : Bool :=
  tr.foldl (fun h e =>
    match e with
    | Event.acquireBootstrap ZxStatus.ok => true
    | Event.releaseBootstrap => false
    | _ => h) false

/-- Interrupt-enable flag after the trace, starting enabled; only the
explicit mask/unmask primitives toggle it (the `DEBUG_ASSERT`s in the
source document that no other collaborator primitive does). -/
def intsAfter (tr : List Event) : Bool :=
  tr.foldl (fun b e =>
    match e with
    | Event.disableInts => false
    | Event.enableInts => true
    | _ => b) true

def isAcquire : Event → Bool
  | Event.acquireBootstrap _ => true
  | _ => false

def isRelease : Event → Bool
  | Event.releaseBootstrap => true
  | _ => false

/-- An arming waking-vector write (nonzero address). -/
def isArmWake : Event → Bool
  | Event.setWakingVector a _ => decide (a ≠ 0)
  | _ => false

/-- A clearing waking-vector write (address zero). -/
def isClearWake : Event → Bool
  | Event.setWakingVector a _ => decide (a = 0)
  | _ => false

def isEnableInts : Event → Bool
  | Event.enableInts => true
  | _ => false

def isTransition : Event → Bool
  | Event.transition _ _ _ _ => true
  | _ => false

/-- One of the three restore primitives of the resume leg. -/
def isResumePrim : Event → Bool
  | Event.archResume => true
  | Event.platformResume => true
  | Event.timerThaw => true
  | _ => false

/-- `allBefore p q tr`: every `p`-event of `tr` occurs strictly before
every `q`-event. -/
def allBefore (p q : Event → Bool) : List Event → Bool
  | [] => true
  | e :: tr => (!(q e) || tr.all (fun x => !(p x))) && allBefore p q tr

/-! Shared helper lemmas (not tied to a single claim). -/

/-- A mask with two distinct bits set is not the CPU-0 singleton mask. -/
theorem two_distinct_bits_ne_one (m : Nat)
    (h : ∃ i j, i ≠ j ∧ m.testBit i = true ∧ m.testBit j = true) : m ≠ 1 := by
  rintro rfl
  obtain ⟨i, j, hij, hi, hj⟩ := h
  rcases Nat.eq_zero_or_pos i with hi0 | hip
  · have hj0 : 0 ≠ j := by omega
    have : Nat.testBit (2 ^ 0) j = false := Nat.testBit_two_pow_of_ne hj0
    rw [pow_zero] at this
    rw [this] at hj
    exact Bool.false_ne_true hj
  · have hi0 : 0 ≠ i := by omega
    have : Nat.testBit (2 ^ 0) i = false := Nat.testBit_two_pow_of_ne hi0
    rw [pow_zero] at this
    rw [this] at hi
    exact Bool.false_ne_true hi

/-- A singleton mask for a nonzero CPU number differs from the CPU-0 mask. -/
theorem cpu_num_to_mask_ne_zero_mask (k : Nat) (hk : k ≠ 0) :
    cpu_num_to_mask k ≠ cpu_num_to_mask 0 := by
  unfold cpu_num_to_mask
  rw [Nat.one_shiftLeft, Nat.one_shiftLeft, pow_zero]
  exact Nat.ne_of_gt (Nat.one_lt_two_pow_iff.mpr hk)

/-! Claim theorems. -/

/-- C4: with the recognized command and a target S-state outside [1,5],
the entry point returns invalid-arguments with an empty collaborator
trace — no bootstrap acquisition, no wake-vector write, no thread spawned
— regardless of the environment (in particular of the online CPU mask). -/
theorem C4_out_of_range_rejected (cmd : Nat) (arg : SystemPowerctlArg)
    (env : PowerctlEnv)
    (hc : cmd = ZX_SYSTEM_POWERCTL_ACPI_TRANSITION_S_STATE)
    (ht : arg.target_s_state = 0 ∨ arg.target_s_state > 5) :
    arch_system_powerctl cmd arg env = (ZxStatus.errInvalidArgs, []) := by
  subst hc
  simp [arch_system_powerctl, ht]

theorem C4_out_of_range_rejected_witness :
    arch_system_powerctl 3 ⟨6, 0, 0⟩ ⟨7, true, ⟨ZxStatus.ok, 4096, true, true, true⟩, true⟩ =
      (ZxStatus.errInvalidArgs, []) :=
  C4_out_of_range_rejected 3 ⟨6, 0, 0⟩ _ rfl (Or.inr (by decide))

/-- C5: with the recognized command, a resumable target S-state in [1,4]
and more than one processing unit online (two distinct bits set in the
online mask), the entry point returns bad-state with an empty collaborator
trace — no thread spawned and no resource-acquire primitive invoked. -/
theorem C5_multicore_rejected (cmd : Nat) (arg : SystemPowerctlArg)
    (env : PowerctlEnv)
    (hc : cmd = ZX_SYSTEM_POWERCTL_ACPI_TRANSITION_S_STATE)
    (ht1 : 1 ≤ arg.target_s_state) (ht4 : arg.target_s_state ≤ 4)
    (hm : ∃ i j, i ≠ j ∧ env.onlineMask.testBit i = true ∧
          env.onlineMask.testBit j = true) :
    arch_system_powerctl cmd arg env = (ZxStatus.errBadState, []) := by
  subst hc
  have hmask : env.onlineMask ≠ cpu_num_to_mask 0 := by
    have h1 : env.onlineMask ≠ 1 := two_distinct_bits_ne_one _ hm
    simpa [cpu_num_to_mask] using h1
  have ht0 : ¬ (arg.target_s_state = 0 ∨ arg.target_s_state > 5) := by omega
  have ht5 : arg.target_s_state ≠ 5 := by omega
  simp [arch_system_powerctl, ht0, ht5, hmask]

theorem C5_multicore_rejected_witness :
    arch_system_powerctl 3 ⟨2, 0, 0⟩ ⟨3, true, ⟨ZxStatus.ok, 4096, true, true, true⟩, true⟩ =
      (ZxStatus.errBadState, []) :=
  C5_multicore_rejected 3 ⟨2, 0, 0⟩ _ rfl (by decide) (by decide)
    ⟨0, 1, by decide, by decide, by decide⟩

/-- C6: for target S-state 5 with the recognized command the multi-core
quiescence check is bypassed: the outcome does not depend on the online
CPU mask at all, and the hardware transition primitive is invoked (exactly
once) whatever that mask is. -/
theorem C6_shutdown_bypasses_cpu_check (cmd : Nat) (arg : SystemPowerctlArg)
    (env : PowerctlEnv) (m : Nat)
    (hc : cmd = ZX_SYSTEM_POWERCTL_ACPI_TRANSITION_S_STATE)
    (ht : arg.target_s_state = 5) :
    arch_system_powerctl cmd arg env =
      arch_system_powerctl cmd arg { env with onlineMask := m }
    ∧ (arch_system_powerctl cmd arg env).2.countP isTransition = 1 := by
  subst hc
  obtain ⟨t, a, b⟩ := arg
  obtain ⟨ma, th, se, sh⟩ := env
  have ht5 : t = 5 := ht
  subst ht5
  cases sh <;> simp [arch_system_powerctl, isTransition, List.countP_cons]

theorem C6_shutdown_bypasses_cpu_check_witness :
    arch_system_powerctl 3 ⟨5, 0, 0⟩ ⟨255, true, ⟨ZxStatus.ok, 4096, true, true, true⟩, true⟩ =
      arch_system_powerctl 3 ⟨5, 0, 0⟩
        { (⟨255, true, ⟨ZxStatus.ok, 4096, true, true, true⟩, true⟩ : PowerctlEnv) with
          onlineMask := 1 }
    ∧ (arch_system_powerctl 3 ⟨5, 0, 0⟩
        ⟨255, true, ⟨ZxStatus.ok, 4096, true, true, true⟩, true⟩).2.countP isTransition = 1 :=
  C6_shutdown_bypasses_cpu_check 3 ⟨5, 0, 0⟩ _ 1 rfl rfl

/-- C9: the quiescence check compares the online mask against the CPU-0
singleton mask specifically, so a request with a resumable target issued
while exactly one unit is online — but that unit is not unit 0 — is
rejected with bad-state even though only one unit is online. -/
theorem C9_requires_cpu_zero (cmd : Nat) (arg : SystemPowerctlArg)
    (env : PowerctlEnv) (k : Nat)
    (hc : cmd = ZX_SYSTEM_POWERCTL_ACPI_TRANSITION_S_STATE)
    (ht1 : 1 ≤ arg.target_s_state) (ht4 : arg.target_s_state ≤ 4)
    (hm : env.onlineMask = cpu_num_to_mask k) (hk : k ≠ 0) :
    arch_system_powerctl cmd arg env = (ZxStatus.errBadState, []) := by
  subst hc
  have hmask : env.onlineMask ≠ cpu_num_to_mask 0 := by
    rw [hm]
    exact cpu_num_to_mask_ne_zero_mask k hk
  have ht0 : ¬ (arg.target_s_state = 0 ∨ arg.target_s_state > 5) := by omega
  have ht5 : arg.target_s_state ≠ 5 := by omega
  simp [arch_system_powerctl, ht0, ht5, hmask]

theorem C9_requires_cpu_zero_witness :
    arch_system_powerctl 3 ⟨3, 1, 2⟩ ⟨2, true, ⟨ZxStatus.ok, 4096, true, true, true⟩, true⟩ =
      (ZxStatus.errBadState, []) :=
  C9_requires_cpu_zero 3 ⟨3, 1, 2⟩ _ 1 rfl (by decide) (by decide) (by decide) (by decide)

/-- C3 counterexample: with target state 5 and an environment in which the
hardware call returns successfully (an unexpected return of control from a
non-resumable shutdown), the entry point returns `ZX_OK` — not
internal-error as the claim states — and the trace shows interrupts were
re-enabled even though the firmware call did not fail. -/
theorem C3_counterexample :
    (arch_system_powerctl 3 ⟨5, 1, 2⟩
        ⟨1, true, ⟨ZxStatus.ok, 4096, true, true, true⟩, true⟩).1 = ZxStatus.ok
    ∧ (arch_system_powerctl 3 ⟨5, 1, 2⟩
        ⟨1, true, ⟨ZxStatus.ok, 4096, true, true, true⟩, true⟩).2.countP isEnableInts = 1 := by
  decide

/-- C3 (amended): on the non-resumable path (target state 5) interrupts
are masked around the hardware transition call and the primitive is
invoked with the dummy (unlinked) register-capture context; after the call
returns, interrupts are re-enabled unconditionally (not only on failure);
a firmware failure is surfaced as internal-error, while an unexpected
successful return from the non-resumable call is surfaced as success. -/
theorem C3_amended_shutdown_path (cmd : Nat) (arg : SystemPowerctlArg)
    (env : PowerctlEnv)
    (hc : cmd = ZX_SYSTEM_POWERCTL_ACPI_TRANSITION_S_STATE)
    (ht : arg.target_s_state = 5) :
    arch_system_powerctl cmd arg env =
      ((if env.shutdownTransitionOk then ZxStatus.ok else ZxStatus.errInternal),
       [Event.disableInts,
        Event.transition Capture.dummyLocal 5 arg.sleep_type_a arg.sleep_type_b,
        Event.enableInts]) := by
  subst hc
  obtain ⟨t, a, b⟩ := arg
  obtain ⟨ma, th, se, sh⟩ := env
  have ht5 : t = 5 := ht
  subst ht5
  cases sh <;> simp [arch_system_powerctl]

theorem C3_amended_shutdown_path_witness :
    arch_system_powerctl 3 ⟨5, 0, 0⟩ ⟨1, true, ⟨ZxStatus.ok, 4096, true, true, true⟩, false⟩ =
      ((if (false : Bool) then ZxStatus.ok else ZxStatus.errInternal),
       [Event.disableInts, Event.transition Capture.dummyLocal 5 0 0,
        Event.enableInts]) :=
  C3_amended_shutdown_path 3 ⟨5, 0, 0⟩ ⟨1, true, ⟨ZxStatus.ok, 4096, true, true, true⟩, false⟩
    rfl rfl

/-- C8: for a valid resumable request (recognized command, state in
[1,4], CPU-0-only online mask): if thread creation fails the entry point
returns resource-exhaustion with no orchestrator work started (the trace
holds only the failed creation — nothing acquired, nothing to clean up);
otherwise it resumes and joins the thread with an infinite timeout and
propagates the TransitionOutcome of the suspend thread verbatim. -/
theorem C8_thread_outcome_propagation (cmd : Nat) (arg : SystemPowerctlArg)
    (env : PowerctlEnv)
    (hc : cmd = ZX_SYSTEM_POWERCTL_ACPI_TRANSITION_S_STATE)
    (ht1 : 1 ≤ arg.target_s_state) (ht4 : arg.target_s_state ≤ 4)
    (hm : env.onlineMask = cpu_num_to_mask 0) :
    (env.threadCreateOk = false →
      arch_system_powerctl cmd arg env =
        (ZxStatus.errNoMemory, [Event.threadCreate false]))
    ∧ (env.threadCreateOk = true →
      (arch_system_powerctl cmd arg env).1 = (suspend_thread arg env.suspendEnv).1
      ∧ (arch_system_powerctl cmd arg env).2 =
          Event.threadCreate true :: Event.threadResume ::
            ((suspend_thread arg env.suspendEnv).2 ++ [Event.threadJoin true])) := by
  subst hc
  have ht0 : ¬ (arg.target_s_state = 0 ∨ arg.target_s_state > 5) := by omega
  have hlt : arg.target_s_state < 5 := by omega
  constructor
  · intro hth
    simp [arch_system_powerctl, ht0, hm, hlt, hth]
  · intro hth
    by_cases hok : (suspend_thread arg env.suspendEnv).1 = ZxStatus.ok <;>
      simp [arch_system_powerctl, ht0, hm, hlt, hth, hok]

theorem C8_thread_outcome_propagation_witness :
    (arch_system_powerctl 3 ⟨3, 1, 2⟩
        ⟨1, true, ⟨ZxStatus.ok, 4096, true, true, true⟩, true⟩).1 =
      (suspend_thread ⟨3, 1, 2⟩ ⟨ZxStatus.ok, 4096, true, true, true⟩).1 :=
  ((C8_thread_outcome_propagation 3 ⟨3, 1, 2⟩
      ⟨1, true, ⟨ZxStatus.ok, 4096, true, true, true⟩, true⟩
      rfl (by decide) (by decide) (by decide)).2 rfl).1

/-- C1 counterexample: in the attempt in which the arming wake-vector set
call itself fails (resource acquisition and table lookup succeeded), the
set primitive is invoked once but the clear primitive zero times, so the
set and clear invocation counts over the attempt are not equal. -/
theorem C1_counterexample :
    (suspend_thread ⟨3, 1, 2⟩ ⟨ZxStatus.ok, 4096, true, false, true⟩).1 =
      ZxStatus.errBadState
    ∧ (suspend_thread ⟨3, 1, 2⟩
        ⟨ZxStatus.ok, 4096, true, false, true⟩).2.countP isArmWake = 1
    ∧ (suspend_thread ⟨3, 1, 2⟩
        ⟨ZxStatus.ok, 4096, true, false, true⟩).2.countP isClearWake = 0 := by
  decide

/-- C1 (amended): on every exit of a resumable suspend attempt in which
resource acquisition succeeded — wake-table lookup failure, wake-vector
set failure, firmware rejection of the transition, or success — the
attempt ends with the wake vector cleared and the bootstrap resource
released, and the acquire and release primitives are invoked an equal
number of times; the set and clear wake-vector primitives are invoked an
equal number of times on every such exit except when the arming set call
itself fails, where the set is invoked once and the clear zero times (the
vector was never armed, so it is already clear). -/
theorem C1_amended_cleanup_counts (arg : SystemPowerctlArg) (env : SuspendEnv)
    (hacq : env.acquireStatus = ZxStatus.ok) (hip : env.bootstrapIp ≠ 0) :
    wakeVectorAfter (suspend_thread arg env).2 = 0
    ∧ bootstrapHeldAfter (suspend_thread arg env).2 = false
    ∧ (suspend_thread arg env).2.countP isAcquire =
        (suspend_thread arg env).2.countP isRelease
    ∧ (env.getTableOk = true → env.setWakeOk = false →
        (suspend_thread arg env).2.countP isArmWake = 1
        ∧ (suspend_thread arg env).2.countP isClearWake = 0)
    ∧ ((env.getTableOk = true → env.setWakeOk = true) →
        (suspend_thread arg env).2.countP isArmWake =
          (suspend_thread arg env).2.countP isClearWake) := by
  obtain ⟨acq, ip, gt, sw, tro⟩ := env
  have hacq' : acq = ZxStatus.ok := hacq
  subst hacq'
  have hip' : ip ≠ 0 := hip
  cases gt <;> cases sw <;> cases tro <;>
    simp [suspend_thread, wakeVectorAfter, bootstrapHeldAfter, isAcquire,
          isRelease, isArmWake, isClearWake, List.countP_cons, hip']

theorem C1_amended_cleanup_counts_witness :
    wakeVectorAfter (suspend_thread ⟨3, 1, 2⟩
      ⟨ZxStatus.ok, 4096, true, false, true⟩).2 = 0 :=
  (C1_amended_cleanup_counts ⟨3, 1, 2⟩ ⟨ZxStatus.ok, 4096, true, false, true⟩
    rfl (by decide)).1

/-- C2: once the bootstrap resource and the wake vector are both
established, the clear of the wake vector occurs strictly before the
bootstrap release (the wake-vector lifetime is strictly nested inside the
bootstrap lifetime, and the arming write follows the acquisition); and on
a genuine resume, interrupts are disabled at entry to the restore phase,
the resume/restore-platform/timer primitives run and interrupts are then
re-enabled, all strictly before the wake vector is cleared and strictly
before the bootstrap resource is released. -/
theorem C2_restore_before_teardown (arg : SystemPowerctlArg) (env : SuspendEnv)
    (hacq : env.acquireStatus = ZxStatus.ok) (hgt : env.getTableOk = true)
    (hsw : env.setWakeOk = true) (hip : env.bootstrapIp ≠ 0) :
    ((suspend_thread arg env).2.any isClearWake = true
     ∧ (suspend_thread arg env).2.any isRelease = true
     ∧ allBefore isAcquire isArmWake (suspend_thread arg env).2 = true
     ∧ allBefore isClearWake isRelease (suspend_thread arg env).2 = true)
    ∧ (env.transitionOk = true →
        (∃ pre post,
           (suspend_thread arg env).2 =
             pre ++ [Event.archResume, Event.platformResume, Event.timerThaw] ++ post
           ∧ intsAfter pre = false)
        ∧ (suspend_thread arg env).2.any isEnableInts = true
        ∧ allBefore isResumePrim isEnableInts (suspend_thread arg env).2 = true
        ∧ allBefore isEnableInts isClearWake (suspend_thread arg env).2 = true
        ∧ allBefore isEnableInts isRelease (suspend_thread arg env).2 = true) := by
  obtain ⟨acq, ip, gt, sw, tro⟩ := env
  have hacq' : acq = ZxStatus.ok := hacq
  subst hacq'
  have hgt' : gt = true := hgt
  subst hgt'
  have hsw' : sw = true := hsw
  subst hsw'
  have hip' : ip ≠ 0 := hip
  cases tro
  · constructor
    · simp [suspend_thread, allBefore, isAcquire, isArmWake, isClearWake,
            isRelease, hip']
    · intro h
      simp at h
  · constructor
    · simp [suspend_thread, allBefore, isAcquire, isArmWake, isClearWake,
            isRelease, hip']
    · intro _
      refine ⟨⟨[Event.acquireBootstrap ZxStatus.ok, Event.getTable true,
                 Event.setWakingVector ip true, Event.writeRegistersPtr,
                 Event.disableInts, Event.platformSuspend, Event.archSuspend,
                 Event.transition Capture.wired arg.target_s_state
                   arg.sleep_type_a arg.sleep_type_b],
                [Event.enableInts, Event.setWakingVector 0 true,
                 Event.releaseBootstrap], by simp [suspend_thread], rfl⟩, ?_, ?_, ?_, ?_⟩ <;>
        simp [suspend_thread, allBefore, isResumePrim, isEnableInts,
              isClearWake, isRelease, hip']

theorem C2_restore_before_teardown_witness :
    allBefore isClearWake isRelease
      (suspend_thread ⟨3, 1, 2⟩ ⟨ZxStatus.ok, 4096, true, true, true⟩).2 = true :=
  (C2_restore_before_teardown ⟨3, 1, 2⟩ ⟨ZxStatus.ok, 4096, true, true, true⟩
    rfl rfl rfl (by decide)).1.2.2.2

/-- C7: when the hardware transition primitive reports firmware rejection
on the resumable path, the suspend attempt re-enables interrupts (after
the transition call), returns internal-error, runs the full cleanup (wake
vector cleared, bootstrap released, one clear and one release invocation)
and the entry point propagates the internal-error outcome to the caller. -/
theorem C7_firmware_rejection_propagated (cmd : Nat) (arg : SystemPowerctlArg)
    (env : PowerctlEnv)
    (hc : cmd = ZX_SYSTEM_POWERCTL_ACPI_TRANSITION_S_STATE)
    (ht1 : 1 ≤ arg.target_s_state) (ht4 : arg.target_s_state ≤ 4)
    (hm : env.onlineMask = cpu_num_to_mask 0)
    (hth : env.threadCreateOk = true)
    (hacq : env.suspendEnv.acquireStatus = ZxStatus.ok)
    (hgt : env.suspendEnv.getTableOk = true)
    (hsw : env.suspendEnv.setWakeOk = true)
    (htr : env.suspendEnv.transitionOk = false)
    (hip : env.suspendEnv.bootstrapIp ≠ 0) :
    (suspend_thread arg env.suspendEnv).1 = ZxStatus.errInternal
    ∧ (arch_system_powerctl cmd arg env).1 = ZxStatus.errInternal
    ∧ intsAfter (suspend_thread arg env.suspendEnv).2 = true
    ∧ allBefore isTransition isEnableInts (suspend_thread arg env.suspendEnv).2 = true
    ∧ wakeVectorAfter (suspend_thread arg env.suspendEnv).2 = 0
    ∧ bootstrapHeldAfter (suspend_thread arg env.suspendEnv).2 = false
    ∧ (suspend_thread arg env.suspendEnv).2.countP isClearWake = 1
    ∧ (suspend_thread arg env.suspendEnv).2.countP isRelease = 1 := by
  subst hc
  have ht0 : ¬ (arg.target_s_state = 0 ∨ arg.target_s_state > 5) := by omega
  have hlt : arg.target_s_state < 5 := by omega
  obtain ⟨ma, th, se, sh⟩ := env
  obtain ⟨acq, ip, gt, sw, tro⟩ := se
  have hacq' : acq = ZxStatus.ok := hacq
  subst hacq'
  have hgt' : gt = true := hgt
  subst hgt'
  have hsw' : sw = true := hsw
  subst hsw'
  have htr' : tro = false := htr
  subst htr'
  have hth' : th = true := hth
  subst hth'
  have hm' : ma = cpu_num_to_mask 0 := hm
  subst hm'
  have hip' : ip ≠ 0 := hip
  simp [arch_system_powerctl, suspend_thread, ht0, hlt, intsAfter,
        wakeVectorAfter, bootstrapHeldAfter, allBefore, isTransition,
        isEnableInts, isClearWake, isRelease, List.countP_cons, hip']

theorem C7_firmware_rejection_propagated_witness :
    (arch_system_powerctl 3 ⟨3, 1, 2⟩
        ⟨1, true, ⟨ZxStatus.ok, 4096, true, true, false⟩, true⟩).1 =
      ZxStatus.errInternal :=
  (C7_firmware_rejection_propagated 3 ⟨3, 1, 2⟩
      ⟨1, true, ⟨ZxStatus.ok, 4096, true, true, false⟩, true⟩
      rfl (by decide) (by decide) (by decide) rfl rfl rfl rfl rfl (by decide)).2.1

/-- C10: on the resumable success path interrupts are still disabled
after the resume/restore primitives have run — the prefix of the trace up
to the final interrupt enable leaves the interrupt flag off, so the debug
assertion before `arch_enable_ints` holds — and interrupts are enabled
exactly once over the attempt, after all three restore primitives. -/
theorem C10_single_interrupt_enable (arg : SystemPowerctlArg) (env : SuspendEnv)
    (hacq : env.acquireStatus = ZxStatus.ok) (hgt : env.getTableOk = true)
    (hsw : env.setWakeOk = true) (htr : env.transitionOk = true) :
    (suspend_thread arg env).2.countP isEnableInts = 1
    ∧ allBefore isResumePrim isEnableInts (suspend_thread arg env).2 = true
    ∧ ∃ pre post,
        (suspend_thread arg env).2 = pre ++ Event.enableInts :: post
        ∧ intsAfter pre = false
        ∧ pre.countP isResumePrim = 3 := by
  obtain ⟨acq, ip, gt, sw, tro⟩ := env
  have hacq' : acq = ZxStatus.ok := hacq
  subst hacq'
  have hgt' : gt = true := hgt
  subst hgt'
  have hsw' : sw = true := hsw
  subst hsw'
  have htr' : tro = true := htr
  subst htr'
  refine ⟨?_, ?_, ⟨[Event.acquireBootstrap ZxStatus.ok, Event.getTable true,
      Event.setWakingVector ip true, Event.writeRegistersPtr,
      Event.disableInts, Event.platformSuspend, Event.archSuspend,
      Event.transition Capture.wired arg.target_s_state arg.sleep_type_a
        arg.sleep_type_b,
      Event.archResume, Event.platformResume, Event.timerThaw],
     [Event.setWakingVector 0 true, Event.releaseBootstrap],
     by simp [suspend_thread], rfl, rfl⟩⟩ <;>
    simp [suspend_thread, allBefore, isResumePrim, isEnableInts,
          List.countP_cons]

theorem C10_single_interrupt_enable_witness :
    (suspend_thread ⟨3, 1, 2⟩ ⟨ZxStatus.ok, 4096, true, true, true⟩).2.countP
      isEnableInts = 1 :=
  (C10_single_interrupt_enable ⟨3, 1, 2⟩ ⟨ZxStatus.ok, 4096, true, true, true⟩
    rfl rfl rfl rfl).1

example : suspend_thread ⟨3, 1, 2⟩ ⟨ZxStatus.ok, 4096, true, true, true⟩ =
    (ZxStatus.ok,
     [Event.acquireBootstrap ZxStatus.ok, Event.getTable true,
      Event.setWakingVector 4096 true, Event.writeRegistersPtr,
      Event.disableInts, Event.platformSuspend, Event.archSuspend,
      Event.transition Capture.wired 3 1 2,
      Event.archResume, Event.platformResume, Event.timerThaw,
      Event.enableInts, Event.setWakingVector 0 true,
      Event.releaseBootstrap]) := by decide
